import Mathlib

/-!
Shallow embedding of the character FSM of the Unit_3_4_FSM_Game repository.

The repository contains two variants of the `Character` module:

* the run-and-jump platformer variant, implemented in
  `Character/Character.c` (`Character_Init`, `Character_Update`), with its
  physics constants documented in `CHARACTER_FSM_GUIDE.md`
  (CHAR_SPEED 4, CHAR_GRAVITY 1.1f, CHAR_JUMP_VELOCITY -10.0f,
  CHAR_MAX_FALL_VELOCITY 15.0f, GROUND_Y 200) and the screen bounds in
  `Character/Character.h` (SCREEN_MIN_X 10, SCREEN_MAX_X 230);

* the omnidirectional dash variant, whose `Character_Update` appears in
  full in the repository README (`unnamed/part_001`, lines 426-475), with
  constants from `Character/Character.h` (CHAR_SPEED 2, CHAR_DASH_SPEED 6,
  CHAR_DASH_DURATION 20) and a commit-only-if-inside window of 20..220 on
  each axis.

C `uint8_t` counters are embedded as `Nat` with an explicit `% 256` at each
increment; `int16_t` coordinates are embedded as `Int` (all reachable values
stay far inside the int16 range, so two's-complement wrap never fires).
The platformer's `float velocity_y` is embedded exactly: a binary32 value is
held as the integer `v * 2^27` (every float of magnitude below 16 whose
exponent stays at or above -27 sits on this grid, which covers every
velocity the update can produce from 0.0f or -10.0f: their magnitudes stay
in [0.0625, 16) until the terminal cap), the only arithmetic the source
performs on it is `v + CHAR_GRAVITY`, embedded as exact integer addition
followed by correct binary32 round-to-nearest-even (`roundF32`), and the
cap comparison and the truncating `(int16_t)` cast are exact on the grid.
This reproduces the single-precision trajectory bit for bit — in
particular the tenth gravity addition of a jump gives 0.99999988f, which
truncates to 0, so the apex is held for three frames. The joystick axis of
the platformer variant is an external analog input embedded in tenths;
the claims exercise it only at neutral (0) and full deflection (10), where
the 0.3f dead-zone comparisons agree exactly.
-/

set_option maxRecDepth 100000

namespace FSMGame

/-- The 9-way joystick compass reading consumed by the dash variant
(`Joystick_t.direction`): centre plus the 8 compass points. -/
inductive Direction
  | CENTRE | N | NE | E | SE | S | SW | W | NW
deriving DecidableEq

namespace Dash

/-- Normal movement speed in pixels per frame (`Character.h`). -/
def CHAR_SPEED : Int := 2

/-- Dash movement speed in pixels per frame (`Character.h`, lines 120-122). -/
def CHAR_DASH_SPEED : Int := 6

/-- Dash duration in frames (`Character.h`). -/
def CHAR_DASH_DURATION : Nat := 20

/-- `CharacterState_t` of the dash variant. -/
inductive CharacterState
  | CHAR_IDLE | CHAR_WALKING | CHAR_DASHING
deriving DecidableEq

/-- `Character_t` of the dash variant: position, FSM state, the two
animation counters and the dash countdown. -/
structure Character where
  x : Int
  y : Int
  state : CharacterState
  animation_frame : Nat
  frame_counter : Nat
  dash_counter : Nat
deriving DecidableEq

/-- STEP 1 of the dash `Character_Update`: map the compass direction to the
8-way movement vector `(move_x, move_y)` (screen coordinates: north is
negative y). `CENTRE` and any unrecognized reading leave the vector zero. -/
def moveOf : Direction → Int × Int
  | Direction.CENTRE => (0, 0)
  | Direction.N => (0, -1)
  | Direction.NE => (1, -1)
  | Direction.E => (1, 0)
  | Direction.SE => (1, 1)
  | Direction.S => (0, 1)
  | Direction.SW => (-1, 1)
  | Direction.W => (-1, 0)
  | Direction.NW => (-1, -1)

/-- The dash-variant `Character_Update` (README `unnamed/part_001`,
lines 426-475): dash trigger, speed selection with countdown, per-axis
move committed only when the new coordinate stays in 20..220, FSM state
priority chain, and walk animation with a threshold of 10. -/
def Character_Update (c : Character) (dir : Direction) (dash_pressed : Bool) :
    Character :=
  -- STEP 1: read joystick direction
  let mv := moveOf dir
  let move_x := mv.1
  let move_y := mv.2
  -- STEP 2: dash button pressed?
  let dc0 := if dash_pressed = true ∧ c.dash_counter = 0 then
    CHAR_DASH_DURATION else c.dash_counter
  -- STEP 3: apply speed (normal or dash speed), counting the timer down
  let speed := if 0 < dc0 then CHAR_DASH_SPEED else CHAR_SPEED
  let dc1 := if 0 < dc0 then dc0 - 1 else dc0
  -- STEP 4: move sprite, each axis kept only when inside the window
  let new_x := c.x + move_x * speed
  let new_y := c.y + move_y * speed
  let x1 := if 20 ≤ new_x ∧ new_x ≤ 220 then new_x else c.x
  let y1 := if 20 ≤ new_y ∧ new_y ≤ 220 then new_y else c.y
  -- STEP 5: update state
  let is_moving := move_x ≠ 0 ∨ move_y ≠ 0
  let st := if 0 < dc1 then CharacterState.CHAR_DASHING
    else if is_moving then CharacterState.CHAR_WALKING
    else CharacterState.CHAR_IDLE
  -- STEP 6: update animation (uint8_t counter increments mod 256)
  let afc : Nat × Nat :=
    if st = CharacterState.CHAR_WALKING then
      let fc0 := (c.frame_counter + 1) % 256
      if 10 ≤ fc0 then ((c.animation_frame + 1) % 2, 0)
      else (c.animation_frame, fc0)
    else (0, 0)
  { x := x1, y := y1, state := st,
    animation_frame := afc.1, frame_counter := afc.2, dash_counter := dc1 }

/-- Modelled from the spec: the dash-variant `Character_Init` is not among
the source files (only its prototype and the comment "Initialize character
at screen center" are); per the spec's initialize operation and scenario,
it spawns the character at the screen centre (120,120), mode IDLE, with all
timers and counters zero. -/
def Character_Init : Character :=
  { x := 120, y := 120, state := CharacterState.CHAR_IDLE,
    animation_frame := 0, frame_counter := 0, dash_counter := 0 }

/-- Run a sequence of per-frame inputs (direction, dash flag) through the
dash-variant update. -/
def run (c : Character) (inputs : List (Direction × Bool)) : Character :=
  inputs.foldl (fun s i => Character_Update s i.1 i.2) c

end Dash

namespace Plat

/-- Horizontal pixels per frame (`CHARACTER_FSM_GUIDE.md`, line 133). -/
def CHAR_SPEED : Int := 4

/-- The fixed scale of the exact binary32 embedding: a float value v is
held as the integer v * 2^27. -/
def F32_SCALE : Nat := 2 ^ 27

/-- Gravity acceleration, the binary32 literal 1.1f
(9227469 * 2^-23 = 1.10000002384185791015625), at scale 2^27. -/
def CHAR_GRAVITY : Int := 147639504

/-- Initial jump velocity, -10.0f (upward is negative), at scale 2^27. -/
def CHAR_JUMP_VELOCITY : Int := -10 * (F32_SCALE : Int)

/-- Terminal falling velocity, 15.0f, at scale 2^27. -/
def CHAR_MAX_FALL_VELOCITY : Int := 15 * (F32_SCALE : Int)

/-- Ground line position on screen. -/
def GROUND_Y : Int := 200

/-- Left screen boundary (`Character.h`). -/
def SCREEN_MIN_X : Int := 10

/-- Right screen boundary (`Character.h`). -/
def SCREEN_MAX_X : Int := 230

/-- `CharacterState_t` of the platformer variant. -/
inductive CharacterState
  | CHAR_IDLE | CHAR_RUNNING | CHAR_JUMPING
deriving DecidableEq

/-- `Character_t` of the platformer variant (`Character.c`); `velocity_y`
is the float field, held exactly as the binary32 value times 2^27. -/
structure Character where
  x : Int
  y : Int
  velocity_y : Int
  state : CharacterState
  prev_state : CharacterState
  animation_frame : Nat
  frame_counter : Nat
  direction : Int
deriving DecidableEq

/-- Floor of the base-2 logarithm, by fuel-bounded halving (structural, so
the kernel can evaluate it; the fuel 64 covers every number below 2^64,
far beyond any scaled velocity). -/
def floorLog2Aux : Nat → Nat → Nat
  | 0, _ => 0
  | fuel + 1, n => if 2 ≤ n then floorLog2Aux fuel (n / 2) + 1 else 0

/-- Floor of the base-2 logarithm of a positive number. -/
def floorLog2 (n : Nat) : Nat := floorLog2Aux 64 n

/-- Correct binary32 rounding (round to nearest, ties to even) of an exact
value held at scale 2^27. A magnitude below 2^24 scaled units is a float
of magnitude below 2^-3 with at most 24 significant bits at an exponent of
-27 or above, hence exactly representable; a larger magnitude keeps its
top 24 bits, rounding the rest to nearest with ties to even. -/
def roundF32 (n : Int) : Int :=
  if n = 0 then 0
  else
    let a := n.natAbs
    let e := floorLog2 a
    if e ≤ 23 then n
    else
      let shift := e - 23
      let q := a / 2 ^ shift
      let r := a % 2 ^ shift
      let half := 2 ^ (shift - 1)
      let q2 := if half < r ∨ (r = half ∧ q % 2 = 1) then q + 1 else q
      if n < 0 then -(q2 * 2 ^ shift : Nat) else (q2 * 2 ^ shift : Nat)

/-- Binary32 addition of two floats held at scale 2^27: the exact sum
(integer addition on the grid) correctly rounded. -/
def addF32 (a b : Int) : Int := roundF32 (a + b)

/-- C truncation toward zero of a scaled velocity: the effect of the
`(int16_t)velocity_y` cast in `Character_Update`. -/
def truncToInt (v : Int) : Int :=
  if 0 ≤ v then Int.ofNat (v.toNat / F32_SCALE)
  else -Int.ofNat ((-v).toNat / F32_SCALE)

/-- `Character_Init` of the platformer variant (`Character.c`, lines
78-87): start at x 120 on the ground, zero velocity, IDLE, counters zero. -/
def Character_Init : Character :=
  { x := 120, y := GROUND_Y, velocity_y := 0,
    state := CharacterState.CHAR_IDLE, prev_state := CharacterState.CHAR_IDLE,
    animation_frame := 0, frame_counter := 0, direction := 0 }

/-- STEP 1 of the platformer `Character_Update` (`Character.c`, lines
104-111): derive the -1/0/1 horizontal intent from the joystick axis
through the 0.3 dead zone. `joyX` is the float axis
`joy->coord_mapped.x` in tenths, so the comparisons are against 3. -/
def input_direction (joyX : Int) : Int :=
  if joyX < -3 then -1 else if 3 < joyX then 1 else 0

/-- STEP 2 of the platformer `Character_Update` (lines 113-121): move
horizontally when the intent is nonzero, then clamp unconditionally to
the screen x bounds. -/
def stepHorizontal (x intent : Int) : Int :=
  let x0 := if intent ≠ 0 then x + intent * CHAR_SPEED else x
  let x1 := if x0 < SCREEN_MIN_X then SCREEN_MIN_X else x0
  if SCREEN_MAX_X < x1 then SCREEN_MAX_X else x1

/-- STEPs 3-4 of the platformer `Character_Update` (lines 123-157):
jump trigger when grounded (set the jump velocity and nudge one pixel
above ground), then the binary32 gravity addition with the
terminal-velocity cap, the truncating `(int16_t)` cast, and the ground
clamp; a grounded
character with no jump gets velocity zero on the ground line. Returns
(velocity_y, y). -/
def stepVertical (y v : Int) (jump_button : Bool) : Int × Int :=
  let is_on_ground := GROUND_Y ≤ y
  let v0 := if jump_button = true ∧ is_on_ground then CHAR_JUMP_VELOCITY
    else v
  let y0 := if jump_button = true ∧ is_on_ground then GROUND_Y - 1 else y
  if y0 < GROUND_Y then
    let v1 := addF32 v0 CHAR_GRAVITY
    let v2 := if CHAR_MAX_FALL_VELOCITY < v1 then CHAR_MAX_FALL_VELOCITY
      else v1
    let y1 := y0 + truncToInt v2
    let y2 := if GROUND_Y < y1 then GROUND_Y else y1
    (v2, y2)
  else (0, GROUND_Y)

/-- STEP 5 of the platformer `Character_Update` (lines 159-197): the FSM
transition switch, keyed on the previous state, the horizontal intent and
the recalculated ground test on the post-physics y. -/
def stepState (st : CharacterState) (intent y : Int) : CharacterState :=
  let is_on_ground2 := GROUND_Y ≤ y
  match st with
  | CharacterState.CHAR_IDLE =>
      if ¬is_on_ground2 then CharacterState.CHAR_JUMPING
      else if intent ≠ 0 then CharacterState.CHAR_RUNNING
      else CharacterState.CHAR_IDLE
  | CharacterState.CHAR_RUNNING =>
      if ¬is_on_ground2 then CharacterState.CHAR_JUMPING
      else if intent = 0 then CharacterState.CHAR_IDLE
      else CharacterState.CHAR_RUNNING
  | CharacterState.CHAR_JUMPING =>
      if is_on_ground2 then
        (if intent ≠ 0 then CharacterState.CHAR_RUNNING
         else CharacterState.CHAR_IDLE)
      else CharacterState.CHAR_JUMPING

/-- STEP 7 of the platformer `Character_Update` (lines 199-211): the
uint8_t frame counter increments (mod 256) and on reaching the 8-frame
threshold resets, advancing the animation frame modulo 2 in RUNNING and
forcing it to 0 in the other states. Returns
(animation_frame, frame_counter). -/
def stepAnim (st : CharacterState) (af fc : Nat) : Nat × Nat :=
  let fc0 := (fc + 1) % 256
  if 8 ≤ fc0 then
    (if st = CharacterState.CHAR_RUNNING then (af + 1) % 2 else 0, 0)
  else (af, fc0)

/-- The platformer `Character_Update` (`Character.c`, lines 102-212),
assembled from the step functions above in the source's order. -/
def Character_Update (c : Character) (joyX : Int) (jump_button : Bool) :
    Character :=
  let intent := input_direction joyX
  let x2 := stepHorizontal c.x intent
  let dir0 := if intent ≠ 0 then intent else c.direction
  let vy := stepVertical c.y c.velocity_y jump_button
  let st := stepState c.state intent vy.2
  let afc := stepAnim st c.animation_frame c.frame_counter
  { x := x2, y := vy.2, velocity_y := vy.1, state := st, prev_state := c.state,
    animation_frame := afc.1, frame_counter := afc.2, direction := dir0 }

/-- Run a sequence of per-frame inputs (joystick x axis in tenths, jump
flag) through the platformer update. -/
def run (c : Character) (inputs : List (Int × Bool)) : Character :=
  inputs.foldl (fun s i => Character_Update s i.1 i.2) c

/-- The canonical jump scenario: from the initialized grounded state, one
update with the jump button pressed, then k further updates with neutral
input and the button released. -/
def jumpTraj (k : Nat) : Character :=
  run Character_Init (((0 : Int), true) :: List.replicate k ((0 : Int), false))

end Plat

end FSMGame

namespace FSMGame

namespace Dash

lemma run_nil (c : Character) : run c [] = c := rfl

lemma run_cons (c : Character) (i : Direction × Bool)
    (l : List (Direction × Bool)) :
    run c (i :: l) = run (Character_Update c i.1 i.2) l := rfl

/-- Any property preserved by one dash update holds after every run. -/
lemma run_preserves (P : Character → Prop)
    (hstep : ∀ c d b, P c → P (Character_Update c d b)) :
    ∀ (l : List (Direction × Bool)) (c : Character), P c → P (run c l) := by
  intro l
  induction l with
  | nil => intro c h; exact h
  | cons i t ih => intro c h; exact ih _ (hstep c i.1 i.2 h)

/-- A dash update never moves either coordinate outside the 20..220
window, because a new coordinate is committed only after the window
check. -/
lemma update_preserves_window (c : Character) (d : Direction) (b : Bool)
    (h : 20 ≤ c.x ∧ c.x ≤ 220 ∧ 20 ≤ c.y ∧ c.y ≤ 220) :
    20 ≤ (Character_Update c d b).x ∧ (Character_Update c d b).x ≤ 220 ∧
    20 ≤ (Character_Update c d b).y ∧ (Character_Update c d b).y ≤ 220 := by
  simp only [Character_Update]
  split_ifs <;> simp_all

/-- A dash update keeps the animation frame binary, the frame counter
below the 10-frame threshold, and the dash countdown at or below
CHAR_DASH_DURATION. -/
lemma update_preserves_counters (c : Character) (d : Direction) (b : Bool)
    (h : c.animation_frame ≤ 1 ∧ c.frame_counter < 10 ∧
      c.dash_counter ≤ CHAR_DASH_DURATION) :
    (Character_Update c d b).animation_frame ≤ 1 ∧
    (Character_Update c d b).frame_counter < 10 ∧
    (Character_Update c d b).dash_counter ≤ CHAR_DASH_DURATION := by
  simp only [Character_Update, CHAR_DASH_DURATION] at h ⊢
  split_ifs <;> simp_all <;> omega

/-- While the countdown is running, an update just decrements it: the
trigger branch only fires from a zero counter, so a held button cannot
reload a running dash. -/
lemma update_dec (c : Character) (d : Direction) (b : Bool)
    (h : 0 < c.dash_counter) :
    (Character_Update c d b).dash_counter = c.dash_counter - 1 := by
  simp only [Character_Update]
  split_ifs <;> simp_all

/-- The state written by an update with a running countdown is DASHING
exactly when the countdown is still positive after this frame's
decrement. -/
lemma update_state_dashing (c : Character) (d : Direction) (b : Bool)
    (h : 0 < c.dash_counter) :
    ((Character_Update c d b).state = CharacterState.CHAR_DASHING
      ↔ 1 < c.dash_counter) := by
  simp only [Character_Update]
  split_ifs <;> simp_all

/-- A button press with an idle countdown starts a dash: the counter is
loaded with CHAR_DASH_DURATION and decremented in the same frame, and the
state becomes DASHING. -/
lemma update_trigger (c : Character) (d : Direction)
    (h : c.dash_counter = 0) :
    (Character_Update c d true).dash_counter = CHAR_DASH_DURATION - 1 ∧
    (Character_Update c d true).state = CharacterState.CHAR_DASHING := by
  simp only [Character_Update, CHAR_DASH_DURATION]
  split_ifs <;> simp_all

/-- With a centre (neutral) direction the movement vector is zero, so the
committed coordinates equal the old ones whatever the speed and window
checks do. -/
lemma update_centre_pos (c : Character) (b : Bool) :
    (Character_Update c Direction.CENTRE b).x = c.x ∧
    (Character_Update c Direction.CENTRE b).y = c.y := by
  simp [Character_Update, moveOf, ite_self]

/-- An update whose written state is not WALKING zeroes both animation
counters (STEP 6 else-branch). -/
lemma update_reset_anim (c : Character) (d : Direction) (b : Bool)
    (h : (Character_Update c d b).state ≠ CharacterState.CHAR_WALKING) :
    (Character_Update c d b).animation_frame = 0 ∧
    (Character_Update c d b).frame_counter = 0 := by
  simp only [Character_Update] at h ⊢
  split_ifs at h ⊢ <;> simp_all

/-- While the dash countdown stays ahead of the frames still to run with
no further button press, every intermediate update keeps the DASHING state
and the counter just counts the frames down. -/
lemma run_sustain : ∀ (l : List Direction) (c : Character),
    c.state = CharacterState.CHAR_DASHING → l.length < c.dash_counter →
    (run c (l.map fun d => (d, false))).state
      = CharacterState.CHAR_DASHING ∧
    (run c (l.map fun d => (d, false))).dash_counter
      = c.dash_counter - l.length := by
  intro l
  induction l with
  | nil =>
      intro c hs _
      exact ⟨hs, by simp [run]⟩
  | cons d t ih =>
      intro c hs hl
      simp only [List.length_cons] at hl ⊢
      have hpos : 0 < c.dash_counter := by omega
      have hdec := update_dec c d false hpos
      have hst : (Character_Update c d false).state
          = CharacterState.CHAR_DASHING :=
        (update_state_dashing c d false hpos).mpr (by omega)
      simp only [List.map_cons, run_cons]
      have key := ih (Character_Update c d false) hst (by omega)
      refine ⟨key.1, ?_⟩
      rw [key.2, hdec]
      omega

/-- When exactly as many no-press frames run as the countdown holds, the
final update drops the countdown to zero and the state leaves DASHING. -/
lemma run_expire : ∀ (l : List Direction) (c : Character),
    c.dash_counter = l.length → 0 < l.length →
    (run c (l.map fun d => (d, false))).state
      ≠ CharacterState.CHAR_DASHING := by
  intro l
  induction l with
  | nil =>
      intro c _ h0
      simp at h0
  | cons d t ih =>
      intro c h h0
      simp only [List.length_cons] at h
      have hpos : 0 < c.dash_counter := by omega
      have hdec := update_dec c d false hpos
      simp only [List.map_cons, run_cons]
      rcases Nat.eq_zero_or_pos t.length with ht | ht
      · have htnil : t = [] := List.length_eq_zero.mp ht
        subst htnil
        simp only [List.map_nil, run_nil]
        intro hcontr
        have h1 := (update_state_dashing c d false hpos).mp hcontr
        omega
      · exact ih (Character_Update c d false) (by omega) ht

/-- A non-centre direction yields a nonzero movement vector. -/
lemma moveOf_ne_zero (d : Direction) (h : d ≠ Direction.CENTRE) :
    (moveOf d).1 ≠ 0 ∨ (moveOf d).2 ≠ 0 := by
  cases d <;> simp_all [moveOf]

/-- One no-press moving update from an idle countdown: the state is
WALKING, the countdown stays zero, and the animation pair advances by the
10-frame rule. -/
lemma step_walk (c : Character) (d : Direction)
    (hdc : c.dash_counter = 0)
    (hd : (moveOf d).1 ≠ 0 ∨ (moveOf d).2 ≠ 0)
    (hfc : c.frame_counter ≤ 9) :
    (Character_Update c d false).dash_counter = 0 ∧
    (Character_Update c d false).state = CharacterState.CHAR_WALKING ∧
    (c.frame_counter = 9 →
      (Character_Update c d false).animation_frame
        = (c.animation_frame + 1) % 2 ∧
      (Character_Update c d false).frame_counter = 0) ∧
    (c.frame_counter < 9 →
      (Character_Update c d false).animation_frame = c.animation_frame ∧
      (Character_Update c d false).frame_counter = c.frame_counter + 1) := by
  simp only [Character_Update]
  split_ifs <;> simp_all <;> omega

/-- Walk-animation cadence: feeding n moving no-press frames into a state
with an idle countdown advances the animation frame modulo 2 once every
10 update calls. -/
lemma walk_cadence : ∀ (l : List Direction) (c : Character),
    c.dash_counter = 0 → c.animation_frame ≤ 1 → c.frame_counter ≤ 9 →
    (∀ d ∈ l, d ≠ Direction.CENTRE) →
    (run c (l.map fun d => (d, false))).animation_frame
      = (c.animation_frame + (c.frame_counter + l.length) / 10) % 2 ∧
    (run c (l.map fun d => (d, false))).frame_counter
      = (c.frame_counter + l.length) % 10 := by
  intro l
  induction l with
  | nil =>
      intro c _ h1 h2 _
      simp only [List.map_nil, run_nil, List.length_nil]
      constructor <;> omega
  | cons d t ih =>
      intro c h0 h1 h2 hmem
      have hd : (moveOf d).1 ≠ 0 ∨ (moveOf d).2 ≠ 0 :=
        moveOf_ne_zero d (hmem d (List.mem_cons_self d t))
      obtain ⟨hdc2, _, hwrap, hkeep⟩ := step_walk c d h0 hd h2
      simp only [List.map_cons, run_cons, List.length_cons]
      by_cases h9 : c.frame_counter = 9
      · obtain ⟨ha, hb⟩ := hwrap h9
        have key := ih (Character_Update c d false) hdc2
          (by rw [ha]; omega) (by rw [hb]; omega)
          (fun d2 hd2 => hmem d2 (List.mem_cons_of_mem d hd2))
        rw [key.1, key.2, ha, hb]
        constructor <;> omega
      · obtain ⟨ha, hb⟩ := hkeep (by omega)
        have key := ih (Character_Update c d false) hdc2
          (by rw [ha]; omega) (by rw [hb]; omega)
          (fun d2 hd2 => hmem d2 (List.mem_cons_of_mem d hd2))
        rw [key.1, key.2, ha, hb]
        constructor <;> omega

end Dash

namespace Plat

/-- Any property preserved by one platformer update holds after every
run. -/
lemma run_invariant (P : Character → Prop)
    (hstep : ∀ c j b, P c → P (Character_Update c j b)) :
    ∀ (l : List (Int × Bool)) (c : Character), P c → P (run c l) := by
  intro l
  induction l with
  | nil => intro c h; exact h
  | cons i t ih => intro c h; exact ih _ (hstep c i.1 i.2 h)

lemma update_x_eq (c : Character) (j : Int) (b : Bool) :
    (Character_Update c j b).x = stepHorizontal c.x (input_direction j) :=
  rfl

lemma update_y_eq (c : Character) (j : Int) (b : Bool) :
    (Character_Update c j b).y = (stepVertical c.y c.velocity_y b).2 := rfl

lemma update_velocity_eq (c : Character) (j : Int) (b : Bool) :
    (Character_Update c j b).velocity_y
      = (stepVertical c.y c.velocity_y b).1 := rfl

lemma update_state_eq (c : Character) (j : Int) (b : Bool) :
    (Character_Update c j b).state
      = stepState c.state (input_direction j)
          (stepVertical c.y c.velocity_y b).2 := rfl

lemma update_anim_eq (c : Character) (j : Int) (b : Bool) :
    (Character_Update c j b).animation_frame
      = (stepAnim (Character_Update c j b).state c.animation_frame
          c.frame_counter).1 := rfl

lemma update_fc_eq (c : Character) (j : Int) (b : Bool) :
    (Character_Update c j b).frame_counter
      = (stepAnim (Character_Update c j b).state c.animation_frame
          c.frame_counter).2 := rfl

/-- The x coordinate is unconditionally clamped to the screen bounds on
every platformer update. -/
lemma update_x_bounds (c : Character) (j : Int) (b : Bool) :
    SCREEN_MIN_X ≤ (Character_Update c j b).x ∧
    (Character_Update c j b).x ≤ SCREEN_MAX_X := by
  rw [update_x_eq]
  simp only [stepHorizontal, SCREEN_MIN_X, SCREEN_MAX_X]
  split_ifs
  all_goals omega

/-- A platformer update keeps the animation frame binary and the frame
counter below the 8-frame threshold. -/
lemma update_counters (c : Character) (j : Int) (b : Bool)
    (h : c.animation_frame ≤ 1 ∧ c.frame_counter < 8) :
    (Character_Update c j b).animation_frame ≤ 1 ∧
    (Character_Update c j b).frame_counter < 8 := by
  rw [update_anim_eq, update_fc_eq]
  simp only [stepAnim]
  split_ifs <;> simp_all <;> omega

/-- An update entered grounded with the jump button up ends with zero
vertical velocity on the ground. -/
lemma update_grounded (c : Character) (j : Int)
    (h : GROUND_Y ≤ c.y) :
    (Character_Update c j false).velocity_y = 0 ∧
    (Character_Update c j false).y = GROUND_Y := by
  rw [update_velocity_eq, update_y_eq]
  simp only [stepVertical, GROUND_Y] at h ⊢
  split_ifs <;> simp_all <;> omega

/-- An update that ends airborne always writes the JUMPING state, from
any previous state. -/
lemma update_airborne_state (c : Character) (j : Int) (b : Bool)
    (h : (Character_Update c j b).y < GROUND_Y) :
    (Character_Update c j b).state = CharacterState.CHAR_JUMPING := by
  rw [update_y_eq] at h
  rw [update_state_eq]
  cases c.state <;>
    (simp only [stepState] ; split_ifs <;> first | rfl | omega)

/-- Between wraps of the 8-frame counter, a platformer update leaves the
animation frame untouched, whatever the state is. -/
lemma update_anim_keep (c : Character) (j : Int) (b : Bool)
    (h : c.frame_counter < 7) :
    (Character_Update c j b).animation_frame = c.animation_frame ∧
    (Character_Update c j b).frame_counter = c.frame_counter + 1 := by
  rw [update_anim_eq, update_fc_eq]
  simp only [stepAnim]
  split_ifs <;> simp_all <;> omega

/-- On the update whose counter reaches the 8-frame threshold, the counter
resets and the animation frame advances modulo 2 in RUNNING and resets to
0 in the other states. -/
lemma update_anim_wrap (c : Character) (j : Int) (b : Bool)
    (h : c.frame_counter = 7) :
    (Character_Update c j b).frame_counter = 0 ∧
    ((Character_Update c j b).state = CharacterState.CHAR_RUNNING →
      (Character_Update c j b).animation_frame
        = (c.animation_frame + 1) % 2) ∧
    ((Character_Update c j b).state ≠ CharacterState.CHAR_RUNNING →
      (Character_Update c j b).animation_frame = 0) := by
  rw [update_anim_eq, update_fc_eq]
  simp only [stepAnim]
  split_ifs <;> simp_all

end Plat

end FSMGame

section ClaimTheorems

open FSMGame

/-- C1: for every sequence of inputs starting from the initialized state,
after every update the position lies within the configured bounding
rectangle — the 20..220 window on both axes in the dash variant, and the
10..230 x-bound alone in the platformer variant — so no accumulated drift
or single bad frame of input leaves the entity out of bounds. -/
theorem C1_boundary_invariant :
    (∀ inputs : List (Direction × Bool),
      20 ≤ (Dash.run Dash.Character_Init inputs).x ∧
      (Dash.run Dash.Character_Init inputs).x ≤ 220 ∧
      20 ≤ (Dash.run Dash.Character_Init inputs).y ∧
      (Dash.run Dash.Character_Init inputs).y ≤ 220) ∧
    (∀ inputs : List (Int × Bool),
      Plat.SCREEN_MIN_X ≤ (Plat.run Plat.Character_Init inputs).x ∧
      (Plat.run Plat.Character_Init inputs).x ≤ Plat.SCREEN_MAX_X) := by
  constructor
  · intro inputs
    exact Dash.run_preserves _ Dash.update_preserves_window inputs
      Dash.Character_Init (by decide)
  · intro inputs
    refine Plat.run_invariant
      (fun c => Plat.SCREEN_MIN_X ≤ c.x ∧ c.x ≤ Plat.SCREEN_MAX_X) ?_ inputs
      Plat.Character_Init (by decide)
    intro c j b _
    exact Plat.update_x_bounds c j b

/-- C2 counterexample: trigger the dash at frame T from the initialized
state (direction E) and never trigger again; the claim asserts the mode is
DASHING for the 20 updates T..T+19, but the update at T+19 (the 20th)
already leaves DASHING because the state test reads the counter after the
frame's decrement. -/
theorem C2_counterexample :
    (Dash.run Dash.Character_Init
      ((Direction.E, true) :: List.replicate 19 (Direction.E, false))).state
      ≠ Dash.CharacterState.CHAR_DASHING := by decide

/-- C2 (amended): triggering the dash at frame T with no further triggers
keeps the mode DASHING for exactly DASH_DURATION - 1 = 19 consecutive
updates T..T+18 (the triggering frame sets the timer to 20 and decrements
it the same frame, and the state test reads the decremented value), and
the update at T+19 transitions the mode away from DASHING. -/
theorem C2_dash_duration :
    ∀ (c : Dash.Character) (d : Direction) (l : List Direction),
      c.dash_counter = 0 →
      (l.length ≤ 18 →
        (Dash.run (Dash.Character_Update c d true)
          (l.map fun e => (e, false))).state
          = Dash.CharacterState.CHAR_DASHING) ∧
      (l.length = 19 →
        (Dash.run (Dash.Character_Update c d true)
          (l.map fun e => (e, false))).state
          ≠ Dash.CharacterState.CHAR_DASHING) := by
  intro c d l h0
  obtain ⟨hdc, hst⟩ := Dash.update_trigger c d h0
  have hdc19 : (Dash.Character_Update c d true).dash_counter = 19 := by
    rw [hdc]; decide
  constructor
  · intro hlen
    exact (Dash.run_sustain l _ hst (by omega)).1
  · intro hlen
    exact Dash.run_expire l _ (by omega) (by omega)

/-- C2 witness: the amended statement applied to the initialized state and
direction E, at 18 and at 19 follow-up frames. -/
theorem C2_dash_duration_witness :
    (Dash.run (Dash.Character_Update Dash.Character_Init Direction.E true)
      ((List.replicate 18 Direction.E).map fun e => (e, false))).state
      = Dash.CharacterState.CHAR_DASHING ∧
    (Dash.run (Dash.Character_Update Dash.Character_Init Direction.E true)
      ((List.replicate 19 Direction.E).map fun e => (e, false))).state
      ≠ Dash.CharacterState.CHAR_DASHING :=
  ⟨(C2_dash_duration Dash.Character_Init Direction.E
      (List.replicate 18 Direction.E) rfl).1 (by decide),
   (C2_dash_duration Dash.Character_Init Direction.E
      (List.replicate 19 Direction.E) rfl).2 (by decide)⟩

/-- C3 counterexample: a reachable pre-state with the dash timer at 1 (a
dash triggered 19 frames ago) enters the update with abilityTimer > 0,
yet the resulting mode is not DASHING, because the mode test reads the
timer after this frame's decrement brings it to 0. -/
theorem C3_counterexample :
    (Dash.run Dash.Character_Init
      ((Direction.CENTRE, true)
        :: List.replicate 18 (Direction.CENTRE, false))).dash_counter = 1 ∧
    (Dash.Character_Update
      (Dash.run Dash.Character_Init
        ((Direction.CENTRE, true)
          :: List.replicate 18 (Direction.CENTRE, false)))
      Direction.CENTRE false).state
      ≠ Dash.CharacterState.CHAR_DASHING := by decide

/-- C3 (amended): the ability condition has highest priority over the
movement input, but it is judged after the update's own bookkeeping: in
the dash variant a pre-state with abilityTimer > 1 (still positive after
this frame's decrement) always yields mode DASHING regardless of the
movement input, and in the platformer variant any update that ends
airborne always yields mode JUMPING regardless of the movement input. -/
theorem C3_ability_priority :
    (∀ (c : Dash.Character) (d : Direction) (b : Bool),
      1 < c.dash_counter →
      (Dash.Character_Update c d b).state
        = Dash.CharacterState.CHAR_DASHING) ∧
    (∀ (c : Plat.Character) (j : Int) (b : Bool),
      (Plat.Character_Update c j b).y < Plat.GROUND_Y →
      (Plat.Character_Update c j b).state
        = Plat.CharacterState.CHAR_JUMPING) := by
  constructor
  · intro c d b h
    exact (Dash.update_state_dashing c d b (by omega)).mpr h
  · intro c j b h
    exact Plat.update_airborne_state c j b h

/-- C3 witness: the dash half at a state with timer 5 under movement input
E, the platformer half at the jump frame from the initialized state. -/
theorem C3_ability_priority_witness :
    (Dash.Character_Update
      { x := 120, y := 120, state := Dash.CharacterState.CHAR_DASHING,
        animation_frame := 0, frame_counter := 0, dash_counter := 5 }
      Direction.E false).state = Dash.CharacterState.CHAR_DASHING ∧
    (Plat.Character_Update Plat.Character_Init 0 true).state
      = Plat.CharacterState.CHAR_JUMPING :=
  ⟨C3_ability_priority.1 _ Direction.E false (by decide),
   C3_ability_priority.2 Plat.Character_Init 0 true (by decide)⟩

/-- C4 counterexample: in the landing frame of the canonical jump (the
18th update), the update ends grounded at y = GROUND_Y in mode IDLE, yet
the vertical velocity still holds its final fall value 9.8000002f: the
air branch clamps y without zeroing the velocity, which is zeroed only by
the next update's grounded branch. -/
theorem C4_counterexample :
    (Plat.jumpTraj 17).y = Plat.GROUND_Y ∧
    (Plat.jumpTraj 17).state = Plat.CharacterState.CHAR_IDLE ∧
    (Plat.jumpTraj 17).velocity_y ≠ 0 := by decide

/-- C4 (amended): the vertical velocity is zero (and y = GROUND_Y) after
every update that is entered grounded with the jump button up; on the
update in which an airborne character lands, the velocity retains its
fall value and is zeroed by the following update. -/
theorem C4_grounded_velocity :
    (∀ (c : Plat.Character) (j : Int),
      Plat.GROUND_Y ≤ c.y →
      (Plat.Character_Update c j false).velocity_y = 0 ∧
      (Plat.Character_Update c j false).y = Plat.GROUND_Y) ∧
    (∀ (c : Plat.Character) (j j2 : Int),
      Plat.GROUND_Y ≤ (Plat.Character_Update c j false).y →
      (Plat.Character_Update (Plat.Character_Update c j false) j2
        false).velocity_y = 0) := by
  constructor
  · exact fun c j h => Plat.update_grounded c j h
  · intro c j j2 h
    exact (Plat.update_grounded _ j2 h).1

/-- C4 witness: the amended statement applied to the initialized grounded
state. -/
theorem C4_grounded_velocity_witness :
    ((Plat.Character_Update Plat.Character_Init 0 false).velocity_y = 0 ∧
     (Plat.Character_Update Plat.Character_Init 0 false).y
       = Plat.GROUND_Y) ∧
    (Plat.Character_Update (Plat.Character_Update Plat.Character_Init 0
      false) 0 false).velocity_y = 0 :=
  ⟨C4_grounded_velocity.1 Plat.Character_Init 0 (by decide),
   C4_grounded_velocity.2 Plat.Character_Init 0 0 (by decide)⟩

/-- C5 counterexample: the jump update from the grounded initialized state
does not end the frame with verticalVelocity = JUMP_VELOCITY and
y = GROUND_Y - 1 (gravity and the position integration already ran in the
same frame: v = -8.8999996f, y = 191); and the following frame's y
decreases (the character rises), refuting the monotonically increasing
y. -/
theorem C5_counterexample :
    (Plat.jumpTraj 0).velocity_y ≠ Plat.CHAR_JUMP_VELOCITY ∧
    (Plat.jumpTraj 0).y ≠ Plat.GROUND_Y - 1 ∧
    (Plat.jumpTraj 1).y < (Plat.jumpTraj 0).y := by decide

/-- C5 (amended): from grounded IDLE at y = GROUND_Y, the jump update ends
the same frame with verticalVelocity equal to the rounded single-precision
sum JUMP_VELOCITY + GRAVITY (-8.8999996f, as gravity applies in the same
frame), mode JUMPING and y = GROUND_Y - 9 = 191; the 17 subsequent
no-input updates stay JUMPING while y falls to the apex 163 — held for
three frames, since the ninth and tenth gravity additions give
-0.10000014f and 0.99999988f, both truncating to 0 — and then rises
monotonically back; the 18th update clamps y to GROUND_Y with mode IDLE
(per the neutral held input) while the velocity still holds its fall
value 9.8000002f (1315333760 at scale 2^27), and the next update zeroes
it. -/
theorem C5_jump_scenario :
    (Plat.jumpTraj 0).velocity_y
      = Plat.addF32 Plat.CHAR_JUMP_VELOCITY Plat.CHAR_GRAVITY ∧
    (Plat.jumpTraj 0).state = Plat.CharacterState.CHAR_JUMPING ∧
    (Plat.jumpTraj 0).y = Plat.GROUND_Y - 9 ∧
    (List.range 17).map (fun k => (Plat.jumpTraj k).state)
      = List.replicate 17 Plat.CharacterState.CHAR_JUMPING ∧
    (List.range 18).map (fun k => (Plat.jumpTraj k).y)
      = [191, 184, 178, 173, 169, 166, 164, 163, 163,
         163, 165, 168, 172, 177, 183, 190, 198, 200] ∧
    (Plat.jumpTraj 17).y = Plat.GROUND_Y ∧
    (Plat.jumpTraj 17).state = Plat.CharacterState.CHAR_IDLE ∧
    (Plat.jumpTraj 17).velocity_y = 1315333760 ∧
    (Plat.Character_Update (Plat.jumpTraj 17) 0 false).velocity_y = 0 := by
  decide

/-- C6: the dash-variant scenario: from IDLE at (120,120), three updates
with direction E and no dash at normal speed 2 reach (126,120) in mode
MOVING (WALKING); one further update with the dash pressed and direction E
yields dash_counter 19 (one decrement already applied), mode DASHING, and
x advanced by the dash speed 6 to 132 in that same frame. -/
theorem C6_dash_scenario :
    (Dash.run Dash.Character_Init
      (List.replicate 3 (Direction.E, false))).x = 126 ∧
    (Dash.run Dash.Character_Init
      (List.replicate 3 (Direction.E, false))).y = 120 ∧
    (Dash.run Dash.Character_Init
      (List.replicate 3 (Direction.E, false))).state
      = Dash.CharacterState.CHAR_WALKING ∧
    (Dash.Character_Update
      (Dash.run Dash.Character_Init (List.replicate 3 (Direction.E, false)))
      Direction.E true).dash_counter = 19 ∧
    (Dash.Character_Update
      (Dash.run Dash.Character_Init (List.replicate 3 (Direction.E, false)))
      Direction.E true).state = Dash.CharacterState.CHAR_DASHING ∧
    (Dash.Character_Update
      (Dash.run Dash.Character_Init (List.replicate 3 (Direction.E, false)))
      Direction.E true).x = 126 + Dash.CHAR_DASH_SPEED := by decide

/-- C7 counterexample: in the platformer variant, 8 updates holding right
advance the walk animation to frame 1; the following neutral update
results in mode IDLE, yet animation_frame is still 1, because the
platformer resets the frame only when the 8-frame counter wraps. -/
theorem C7_counterexample :
    (Plat.run Plat.Character_Init
      (List.replicate 8 ((10 : Int), false) ++ [((0 : Int), false)])).state
      = Plat.CharacterState.CHAR_IDLE ∧
    (Plat.run Plat.Character_Init
      (List.replicate 8 ((10 : Int), false)
        ++ [((0 : Int), false)])).animation_frame = 1 := by decide

/-- C7 (amended): in the dash variant every update whose resulting mode is
not MOVING forces animationFrame (and the frame counter) to 0, and while
mode stays MOVING the animation frame advances modulo 2 every 10 update
calls; in the platformer variant the animation frame changes only on
updates where the 8-frame counter wraps — advancing modulo 2 in MOVING and
resetting to 0 in the other modes — and between wraps it keeps its
previous value, so it can stay nonzero for up to 7 updates after the mode
leaves MOVING. -/
theorem C7_animation :
    (∀ (c : Dash.Character) (d : Direction) (b : Bool),
      (Dash.Character_Update c d b).state
        ≠ Dash.CharacterState.CHAR_WALKING →
      (Dash.Character_Update c d b).animation_frame = 0 ∧
      (Dash.Character_Update c d b).frame_counter = 0) ∧
    (∀ (l : List Direction) (c : Dash.Character),
      c.dash_counter = 0 → c.animation_frame ≤ 1 → c.frame_counter ≤ 9 →
      (∀ d ∈ l, d ≠ Direction.CENTRE) →
      (Dash.run c (l.map fun d => (d, false))).animation_frame
        = (c.animation_frame + (c.frame_counter + l.length) / 10) % 2) ∧
    (∀ (c : Plat.Character) (j : Int) (b : Bool), c.frame_counter < 7 →
      (Plat.Character_Update c j b).animation_frame
        = c.animation_frame) ∧
    (∀ (c : Plat.Character) (j : Int) (b : Bool), c.frame_counter = 7 →
      ((Plat.Character_Update c j b).state
          = Plat.CharacterState.CHAR_RUNNING →
        (Plat.Character_Update c j b).animation_frame
          = (c.animation_frame + 1) % 2) ∧
      ((Plat.Character_Update c j b).state
          ≠ Plat.CharacterState.CHAR_RUNNING →
        (Plat.Character_Update c j b).animation_frame = 0)) := by
  refine ⟨Dash.update_reset_anim, ?_, ?_, ?_⟩
  · intro l c h0 h1 h2 hmem
    exact (Dash.walk_cadence l c h0 h1 h2 hmem).1
  · intro c j b h
    exact (Plat.update_anim_keep c j b h).1
  · intro c j b h
    exact (Plat.update_anim_wrap c j b h).2

/-- C7 witness: each part of the amended statement at a concrete input —
a dashing update resetting the frame, a 10-frame walk advancing it to 1,
a mid-cycle platformer update keeping it, and a wrap update in RUNNING
advancing it. -/
theorem C7_animation_witness :
    ((Dash.Character_Update
      { x := 120, y := 120, state := Dash.CharacterState.CHAR_IDLE,
        animation_frame := 1, frame_counter := 3, dash_counter := 5 }
      Direction.E false).animation_frame = 0 ∧
     (Dash.Character_Update
      { x := 120, y := 120, state := Dash.CharacterState.CHAR_IDLE,
        animation_frame := 1, frame_counter := 3, dash_counter := 5 }
      Direction.E false).frame_counter = 0) ∧
    (Dash.run Dash.Character_Init
      ((List.replicate 10 Direction.E).map fun d => (d, false))).animation_frame
      = 1 ∧
    (Plat.Character_Update Plat.Character_Init 0 false).animation_frame
      = 0 ∧
    (Plat.Character_Update
      { Plat.Character_Init with frame_counter := 7 } 10
      false).animation_frame = 1 :=
  ⟨C7_animation.1 _ Direction.E false (by decide),
   C7_animation.2.1 (List.replicate 10 Direction.E) Dash.Character_Init rfl
     (by decide) (by decide) (by decide),
   C7_animation.2.2.1 Plat.Character_Init 0 false (by decide),
   (C7_animation.2.2.2 { Plat.Character_Init with frame_counter := 7 } 10
     false rfl).1 (by decide)⟩

/-- C8 counterexample: holding the dash flag true for 21 consecutive
updates from the initialized state performs a second activation: the
counter runs 19..0 over the first 20 updates and the 21st update, with the
flag still set and no intervening clear, reloads it to 19. -/
theorem C8_counterexample :
    (Dash.run Dash.Character_Init
      (List.replicate 20 (Direction.E, true))).dash_counter = 0 ∧
    (Dash.run Dash.Character_Init
      (List.replicate 21 (Direction.E, true))).dash_counter = 19 := by decide

/-- C8 (amended): while the dash timer is positive a held flag causes no
new activation — the update only decrements the counter — so there is at
most one activation per DASH_DURATION-frame window; but once the timer
reaches zero, a flag still set starts a fresh activation. -/
theorem C8_no_retrigger :
    (∀ (c : Dash.Character) (d : Direction) (b : Bool),
      0 < c.dash_counter →
      (Dash.Character_Update c d b).dash_counter = c.dash_counter - 1) ∧
    (∀ (c : Dash.Character) (d : Direction), c.dash_counter = 0 →
      (Dash.Character_Update c d true).dash_counter
        = Dash.CHAR_DASH_DURATION - 1) :=
  ⟨Dash.update_dec, fun c d h => (Dash.update_trigger c d h).1⟩

/-- C8 witness: a held flag over a running timer only decrements it (7 to
6), and a press over an idle timer loads DASH_DURATION - 1 = 19. -/
theorem C8_no_retrigger_witness :
    (Dash.Character_Update
      { x := 120, y := 120, state := Dash.CharacterState.CHAR_DASHING,
        animation_frame := 0, frame_counter := 0, dash_counter := 7 }
      Direction.E true).dash_counter = 6 ∧
    (Dash.Character_Update Dash.Character_Init Direction.E
      true).dash_counter = Dash.CHAR_DASH_DURATION - 1 :=
  ⟨C8_no_retrigger.1 _ Direction.E true (by decide),
   C8_no_retrigger.2 Dash.Character_Init Direction.E rfl⟩

/-- C9: a dash press with neutral direction leaves the position unchanged
(the committed coordinates equal the old ones since the movement vector is
zero), yet still enters DASHING and burns the timer: the counter is set to
DASH_DURATION and decremented to 19 that same frame, and it keeps
decrementing (with the position still unchanged) on subsequent
neutral-input frames. -/
theorem C9_neutral_dash :
    (∀ (c : Dash.Character), c.dash_counter = 0 →
      (Dash.Character_Update c Direction.CENTRE true).x = c.x ∧
      (Dash.Character_Update c Direction.CENTRE true).y = c.y ∧
      (Dash.Character_Update c Direction.CENTRE true).state
        = Dash.CharacterState.CHAR_DASHING ∧
      (Dash.Character_Update c Direction.CENTRE true).dash_counter
        = Dash.CHAR_DASH_DURATION - 1) ∧
    (∀ (c : Dash.Character) (b : Bool), 0 < c.dash_counter →
      (Dash.Character_Update c Direction.CENTRE b).x = c.x ∧
      (Dash.Character_Update c Direction.CENTRE b).y = c.y ∧
      (Dash.Character_Update c Direction.CENTRE b).dash_counter
        = c.dash_counter - 1) := by
  constructor
  · intro c h
    obtain ⟨hx, hy⟩ := Dash.update_centre_pos c true
    obtain ⟨hdc, hst⟩ := Dash.update_trigger c Direction.CENTRE h
    exact ⟨hx, hy, hst, hdc⟩
  · intro c b h
    obtain ⟨hx, hy⟩ := Dash.update_centre_pos c b
    exact ⟨hx, hy, Dash.update_dec c Direction.CENTRE b h⟩

/-- C9 witness: the neutral trigger from the initialized state, and a
subsequent neutral no-press frame over a running timer. -/
theorem C9_neutral_dash_witness :
    ((Dash.Character_Update Dash.Character_Init Direction.CENTRE true).x
      = 120 ∧
     (Dash.Character_Update Dash.Character_Init Direction.CENTRE true).y
      = 120 ∧
     (Dash.Character_Update Dash.Character_Init Direction.CENTRE true).state
      = Dash.CharacterState.CHAR_DASHING ∧
     (Dash.Character_Update Dash.Character_Init Direction.CENTRE
       true).dash_counter = Dash.CHAR_DASH_DURATION - 1) ∧
    ((Dash.Character_Update
      { x := 120, y := 120, state := Dash.CharacterState.CHAR_DASHING,
        animation_frame := 0, frame_counter := 0, dash_counter := 19 }
      Direction.CENTRE false).x = 120 ∧
     (Dash.Character_Update
      { x := 120, y := 120, state := Dash.CharacterState.CHAR_DASHING,
        animation_frame := 0, frame_counter := 0, dash_counter := 19 }
      Direction.CENTRE false).y = 120 ∧
     (Dash.Character_Update
      { x := 120, y := 120, state := Dash.CharacterState.CHAR_DASHING,
        animation_frame := 0, frame_counter := 0, dash_counter := 19 }
      Direction.CENTRE false).dash_counter = 18) :=
  ⟨C9_neutral_dash.1 Dash.Character_Init rfl,
   C9_neutral_dash.2 _ false (by decide)⟩

/-- C10: after Character_Init and after any sequence of updates, the
animation frame is 0 or 1 (a valid index into the two-frame sprite set),
the frame counter stays strictly below the animation threshold (8 in the
platformer variant, 10 in the dash variant), and the dash counter never
exceeds CHAR_DASH_DURATION, so the uint8_t counters can never wrap. -/
theorem C10_counter_bounds :
    (∀ inputs : List (Direction × Bool),
      (Dash.run Dash.Character_Init inputs).animation_frame ≤ 1 ∧
      (Dash.run Dash.Character_Init inputs).frame_counter < 10 ∧
      (Dash.run Dash.Character_Init inputs).dash_counter
        ≤ Dash.CHAR_DASH_DURATION) ∧
    (∀ inputs : List (Int × Bool),
      (Plat.run Plat.Character_Init inputs).animation_frame ≤ 1 ∧
      (Plat.run Plat.Character_Init inputs).frame_counter < 8) := by
  constructor
  · intro inputs
    exact Dash.run_preserves _ Dash.update_preserves_counters inputs
      Dash.Character_Init (by decide)
  · intro inputs
    exact Plat.run_invariant
      (fun c => c.animation_frame ≤ 1 ∧ c.frame_counter < 8)
      Plat.update_counters inputs Plat.Character_Init (by decide)

end ClaimTheorems

